import Mathlib

/-!
Verification of `examples/map_synthesis/train_and_test_pix2pix.py`
(pytorch_bayesian_unet).

The script is a configuration-and-orchestration driver: it parses
command-line arguments, builds a normalizer/augmentor/dataset triple, and
dispatches between a training phase and a testing phase.  The embedding
below translates the configuration values, the mode dispatch of `main`,
the artifact registrations of `train_phase`, and the per-sample evaluation
arithmetic of `test_phase` into Lean.  Library routines that live in the
`pytorch_bcnn` / `pytorch_trainer` packages (not part of this file) are
modelled from the specification where a claim depends on their behaviour;
each such definition is marked `Modelled from the spec:`.

Real-number quantities (learning rates, pixel values) are embedded as
rationals: the claims under examination are about configuration and
exact arithmetic structure, not floating-point rounding.
-/

namespace Pix2Pix

/-- Command-line arguments assembled by `argparse` in `main`.  Flags of
`type=int` become `Int`, `type=float` become `ℚ`, `action=store_true`
become `Bool`, strings stay `String`. -/
structure Args where
  data_root : String
  batchsize : Int
  iteration : Int
  frequency : Int
  gpu : String
  out : String
  resume : String
  valid_augment : Bool
  valid_split_ratio : ℚ
  lr : ℚ
  alpha : ℚ
  beta : ℚ
  decay : ℚ
  mc_iteration : Int
  pinfall : Int
  freeze_upconv : Bool
  test_on_test : Bool
  test_on_valid : Bool
  seed : Int
deriving Repr, DecidableEq

/-- The default value of every argument, as declared by the parser in `main`. -/
def default_args : Args where
  data_root := "./preprocessed"
  batchsize := 5
  iteration := 200000
  frequency := -1
  gpu := "cuda:0"
  out := "logs"
  resume := ""
  valid_augment := false
  valid_split_ratio := 1/10
  lr := 4/10000
  alpha := 50
  beta := 1/2
  decay := -1
  mc_iteration := 15
  pinfall := -1
  freeze_upconv := false
  test_on_test := false
  test_on_valid := false
  seed := 0

/-- Normalization operations from `pytorch_bcnn.data.normalizer` imported by
the script.  Each carries its constructor argument. -/
inductive NormOp where
  | Subtract2D (subtrahend : ℚ)
  | Divide2D (divisor : ℚ)
  | Clip2D (lo hi : ℚ)
deriving Repr, DecidableEq

/-- Augmentation operations from `pytorch_bcnn.data.augmentor` imported by
the script.  Each carries its constructor arguments. -/
inductive AugOp where
  | ResizeCrop2D (resize_size : Int × Int) (crop_size : Int × Int)
  | Flip2D (axis : Int)
  | Affine2D
deriving Repr, DecidableEq

/-- `get_normalizer`: the `Normalizer()` built by the script, as the list of
operations `add`ed to it, in order. -/
def get_normalizer : List NormOp :=
  [NormOp.Subtract2D 0]

/-- `get_augmentor`: the `DataAugmentor()` built by the script, as the list of
operations `add`ed to it, in order. -/
def get_augmentor : List AugOp :=
  [AugOp.ResizeCrop2D (286, 286) (256, 256), AugOp.Flip2D 1, AugOp.Flip2D 2]

/-- An `ImageDataset` as configured by `get_dataset`: the filename patterns for
the `image` and `label` keys, and the attached normalizer and augmentor
(`none` when absent). -/
structure ImageDataset where
  image_pattern : String
  label_pattern : String
  normalizer : Option (List NormOp)
  augmentor : Option (List AugOp)
deriving Repr, DecidableEq

/-- Modelled from the spec: `pytorch_bcnn.datasets.train_valid_split` is not
under `src/` (only this driver is); the spec describes it as splitting one
dataset into a training part and a validation part by the given ratio, so both
parts keep the configuration (patterns, normalizer, augmentor) of the dataset
that was split. -/
def train_valid_split (d : ImageDataset) (ratio : ℚ) : ImageDataset × ImageDataset :=
  (d, d)

/-- `del valid.augmentor`: removing the augmentor attribute of a dataset. -/
def del_augmentor (d : ImageDataset) : ImageDataset :=
  { d with augmentor := none }

/-- `get_dataset`: builds the train/valid/test datasets.  The train/valid pair
comes from splitting one dataset over the `train` file patterns (augmentor
attached); the augmentor is deleted from the validation part unless
`valid_augment` is set; the test dataset uses the `val` file patterns and
`augmentor=None`. -/
def get_dataset (data_root : String) (valid_split_ratio : ℚ)
    (valid_augment : Bool) (normalizer : Option (List NormOp))
    (augmentor : Option (List AugOp)) :
    ImageDataset × ImageDataset × ImageDataset :=
  let train_dataset : ImageDataset :=
    { image_pattern := "{root}/train/{patient}_a.mha"
      label_pattern := "{root}/train/{patient}_b.mha"
      normalizer := normalizer
      augmentor := augmentor }
  let tv := train_valid_split train_dataset valid_split_ratio
  let train := tv.1
  let valid := if valid_augment then tv.2 else del_augmentor tv.2
  let test : ImageDataset :=
    { image_pattern := "{root}/val/{patient}_a.mha"
      label_pattern := "{root}/val/{patient}_b.mha"
      normalizer := normalizer
      augmentor := none }
  (train, valid, test)

/-! ### `train_phase` configuration -/

/-- `frequency = max(args.iteration//80, 1) if args.frequency == -1 else
max(1, args.frequency)` (line 210).  Python `//` is floor division, hence
`Int.fdiv`. -/
def frequency (args : Args) : Int :=
  if args.frequency = -1 then max (Int.fdiv args.iteration 80) 1
  else max 1 args.frequency

/-- Configuration of a `torch.optim.Adam` optimizer as constructed in
`train_phase`. -/
structure AdamConfig where
  lr : ℚ
  betas : ℚ × ℚ
  weight_decay : ℚ
deriving Repr, DecidableEq

/-- `optimizer_G` (lines 185-188): Adam over the generator parameters. -/
def optimizer_G (args : Args) : AdamConfig :=
  { lr := args.lr
    betas := (args.beta, 0.999)
    weight_decay := max args.decay 0 }

/-- `optimizer_D` (lines 190-193): Adam over the discriminator parameters. -/
def optimizer_D (args : Args) : AdamConfig :=
  { lr := args.lr
    betas := (args.beta, 0.999)
    weight_decay := max args.decay 0 }

/-- Configuration of the `EarlyStoppingTrigger` built in `train_phase`
(lines 212-215).  `patients = np.inf` is embedded as `none`. -/
structure StopTriggerConfig where
  monitor : String
  max_trigger : Int × String
  check_trigger : Int × String
  patients : Option Int
deriving Repr, DecidableEq

/-- The stop trigger handed to the `Trainer`. -/
def stop_trigger (args : Args) : StopTriggerConfig :=
  { monitor := "validation/main/loss"
    max_trigger := (args.iteration, "iteration")
    check_trigger := (frequency args, "iteration")
    patients := if args.pinfall = -1 then none else some (max 1 args.pinfall) }

/-- Modelled from the spec: the trainer/trigger machinery of
`pytorch_trainer` is not under `src/`.  The spec says training runs for at
most the configured iteration count with optional early stopping: the stop
trigger fires when early stopping demands it or, at the latest, once the
updater's iteration count has reached `max_trigger`.  `earlyStop j` abstracts
the (validation-loss dependent) early-stopping decision after `j` updates. -/
def triggerFires (t : StopTriggerConfig) (earlyStop : Nat → Bool) (iter : Nat) : Bool :=
  earlyStop iter || (t.max_trigger.1 ≤ (iter : Int))

/-- Modelled from the spec: the trainer loop `while not stop_trigger: update()`
executes the update of index `k` (0-based) iff the trigger fired at none of the
iteration counts `0, ..., k` observed before it. -/
def updateExecuted (t : StopTriggerConfig) (earlyStop : Nat → Bool) (k : Nat) : Prop :=
  ∀ j ≤ k, triggerFires t earlyStop j = false

/-- Targets of the three `snapshot` extensions registered in `train_phase`. -/
inductive SnapshotTarget where
  | trainer
  | generator
  | discriminator
deriving Repr, DecidableEq

/-- Which configuration object a JSON summary persists. -/
inductive ConfigKind where
  | args
  | model
  | normalizer
  | augmentor
  | discriminator
deriving Repr, DecidableEq

/-- A file-producing registration of the training mode: a JSON configuration
summary, a parameter snapshot extension with its trigger interval, or one of
the other file-writing extensions (validation figures, log, plots). -/
inductive Artifact where
  | configJson (filename : String) (kind : ConfigKind)
  | snapshot (pattern : String) (target : SnapshotTarget) (trigger : Int × String)
  | validationFigure (pattern : String) (trigger : Int × String)
  | logReport (trigger : Int × String)
  | plotFigure (filename : String) (trigger : Int × String)
deriving Repr, DecidableEq

/-- The file-producing registrations made inside `train_phase`, in program
order: `discriminator.save_args` (line 177), the `Validator` extension
(lines 240-243), the three snapshot extensions (lines 249-254), `LogReport`
(line 259) and the two `PlotReport` extensions (lines 262-268). -/
def train_phase_artifacts (args : Args) : List Artifact :=
  [ Artifact.configJson "discriminator.json" ConfigKind.discriminator,
    Artifact.validationFigure "validation/iter_\x7b.updater.iteration:08\x7d.png"
      (frequency args, "iteration"),
    Artifact.snapshot "snapshot_iter_\x7b.updater.iteration:08\x7d.pth"
      SnapshotTarget.trainer (frequency args, "iteration"),
    Artifact.snapshot "generator_iter_\x7b.updater.iteration:08\x7d.pth"
      SnapshotTarget.generator (frequency args, "iteration"),
    Artifact.snapshot "discriminator_iter_\x7b.updater.iteration:08\x7d.pth"
      SnapshotTarget.discriminator (frequency args, "iteration"),
    Artifact.logReport (100, "iteration"),
    Artifact.plotFigure "loss.png" (frequency args, "iteration"),
    Artifact.plotFigure "accuracy.png" (frequency args, "iteration") ]

/-- All file-producing registrations of training mode: the JSON summaries
written by the training branch of `main` (lines 503-506) followed by those of
`train_phase`. -/
def train_mode_artifacts (args : Args) : List Artifact :=
  [ Artifact.configJson "args" ConfigKind.args,
    Artifact.configJson "model.json" ConfigKind.model,
    Artifact.configJson "norm.json" ConfigKind.normalizer,
    Artifact.configJson "augment.json" ConfigKind.augmentor ]
  ++ train_phase_artifacts args

/-- The snapshot registrations among a list of artifacts. -/
def snapshotsOf (l : List Artifact) : List (String × SnapshotTarget × (Int × String)) :=
  l.filterMap fun a =>
    match a with
    | Artifact.snapshot p tgt trg => some (p, tgt, trg)
    | _ => none

/-- The JSON configuration summaries among a list of artifacts. -/
def configJsonsOf (l : List Artifact) : List (String × ConfigKind) :=
  l.filterMap fun a =>
    match a with
    | Artifact.configJson f k => some (f, k)
    | _ => none

/-! ### `main` dispatch -/

/-- Which dataset a `test_phase` call receives. -/
inductive Split where
  | train
  | valid
  | test
deriving Repr, DecidableEq

/-- Observable steps of `main` after the datasets are built: the three JSON
summaries and `save_args` of the training branch, a `test_phase` call, or a
`train_phase` call. -/
inductive Step where
  | testPhase (split : Split)
  | saveArgs
  | saveModelJson (path : String)
  | saveNormJson (path : String)
  | saveAugmentJson (path : String)
  | trainPhase
deriving Repr, DecidableEq

/-- `os.path.join` for the relative second arguments this script uses. -/
def pathJoin (a b : String) : String := a ++ "/" ++ b

/-- The `RuntimeError` message of the unfinished test-on-test branch
(line 498). -/
def under_construction_msg : String :=
  "This example is under construction. Please tune the hyperparameters first.."

/-- The dispatch of `main` (lines 497-508): the steps executed, paired with
the message of the uncaught `RuntimeError` when one is raised.  A raise ends
execution, so no step after it appears in the trace. -/
def mainDispatch (args : Args) : List Step × Option String :=
  if args.test_on_test then
    ([], some under_construction_msg)
  else if args.test_on_valid then
    ([Step.testPhase Split.valid], none)
  else
    ([Step.saveArgs,
      Step.saveModelJson (pathJoin args.out "model.json"),
      Step.saveNormJson (pathJoin args.out "norm.json"),
      Step.saveAugmentJson (pathJoin args.out "augment.json"),
      Step.trainPhase], none)

/-! ### `test_phase`: MC sampling configuration and per-sample evaluation

Arrays are embedded as index functions with explicit shapes; `numpy` /
`torch` reductions become `Finset.range` sums. -/

/-- A channels-last array of shape (H, W, C), as produced by `load_image`. -/
structure ImageHWC where
  H : Nat
  W : Nat
  C : Nat
  px : Nat → Nat → Nat → ℚ

/-- A channels-first array of shape (C, H, W), as produced by the generator /
inferencer for one sample. -/
structure ImageCHW where
  C : Nat
  H : Nat
  W : Nat
  px : Nat → Nat → Nat → ℚ

/-- A two-dimensional array of shape (H, W), e.g. one sample's predictive
variance after the channel reduction. -/
structure ImageHW where
  H : Nat
  W : Nat
  px : Nat → Nat → ℚ

/-- `p.transpose(1,2,0)`: (C, H, W) to (H, W, C). -/
def transpose120 (p : ImageCHW) : ImageHWC :=
  { H := p.H, W := p.W, C := p.C, px := fun i j c => p.px c i j }

/-- `x[:,:,::-1]`: reverse the channel axis of a channels-last array. -/
def revChannels (x : ImageHWC) : ImageHWC :=
  { x with px := fun i j c => x.px i j (x.C - 1 - c) }

/-- `(x + 1.) / 2.` elementwise. -/
def rescaleHalf (x : ImageHWC) : ImageHWC :=
  { x with px := fun i j c => (x.px i j c + 1) / 2 }

/-- `np.mean(np.abs(p - lb), axis=-1)`: the per-pixel mean over channels of
the absolute difference (line 337). -/
def errorMap (p lb : ImageHWC) : ImageHW :=
  { H := p.H, W := p.W,
    px := fun i j =>
      (∑ c ∈ Finset.range p.C, |p.px i j c - lb.px i j c|) / (p.C : ℚ) }

/-- `eval_metric` (lines 151-156): the mean absolute error over all entries. -/
def eval_metric (y t : ImageHWC) : ℚ :=
  (∑ i ∈ Finset.range y.H, ∑ j ∈ Finset.range y.W,
      ∑ c ∈ Finset.range y.C, |y.px i j c - t.px i j c|) /
    ((y.H : ℚ) * y.W * y.C)

/-- `np.mean(u)` for a 2-d array. -/
def meanHW (u : ImageHW) : ℚ :=
  (∑ i ∈ Finset.range u.H, ∑ j ∈ Finset.range u.W, u.px i j) /
    ((u.H : ℚ) * u.W)

/-- The activation handed to a model wrapper (`torch.tanh` in this script). -/
inductive Activation where
  | tanh
  | relu
  | sigmoid
deriving Repr, DecidableEq

/-- A reduction argument of `MCSampler`: `None`, or `partial(torch.mean, dim=d)`. -/
inductive Reduction where
  | none
  | meanDim (dim : Nat)
deriving Repr, DecidableEq

/-- Configuration of the `MCSampler` wrapper built in `test_phase`
(lines 294-298). -/
structure MCSamplerConfig where
  mc_iteration : Int
  activation : Activation
  reduce_mean : Reduction
  reduce_var : Reduction
deriving Repr, DecidableEq

/-- The `MCSampler` built in `test_phase`: `mc_iteration = args.mc_iteration`,
`activation = torch.tanh`, `reduce_mean = None`,
`reduce_var = partial(torch.mean, dim=1)`. -/
def test_model (args : Args) : MCSamplerConfig :=
  { mc_iteration := args.mc_iteration
    activation := Activation.tanh
    reduce_mean := Reduction.none
    reduce_var := Reduction.meanDim 1 }

/-- Modelled from the spec: `MCSampler` (`pytorch_bcnn.links`, not under
`src/`) estimates predictive uncertainty by repeated stochastic forward
passes — it runs the generator `mc_iteration` times on the input, with the
configured activation applied to each output and the configured reductions
applied to the stack.  `forward k` stands for the k-th stochastic
(MC-dropout) forward pass, activation included. -/
def mcSampleOutputs (cfg : MCSamplerConfig) (forward : Nat → ImageCHW) :
    List ImageCHW :=
  (List.range cfg.mc_iteration.toNat).map forward

/-- The data one iteration of the evaluation loop of `test_phase` consumes:
the inferencer's prediction and variance for the sample, and the raw image
and label arrays it reloads from disk. -/
structure TestSample where
  pred : ImageCHW
  uncert : ImageHW
  image : ImageHWC
  label : ImageHWC

/-- The values one iteration of the evaluation loop computes. -/
structure ProcessedSample where
  im : ImageHWC
  lb : ImageHWC
  p : ImageHWC
  error : ImageHW
  mae : ℚ
  pv : ℚ

/-- One iteration of the evaluation loop (lines 326-340): rescale the
channel-reversed image and label, transpose and likewise rescale the
prediction, then compute the error map, the mean absolute error and the mean
predictive variance. -/
def processSample (s : TestSample) : ProcessedSample :=
  let im := rescaleHalf (revChannels s.image)
  let lb := rescaleHalf (revChannels s.label)
  let p := rescaleHalf (revChannels (transpose120 s.pred))
  { im := im, lb := lb, p := p,
    error := errorMap p lb,
    mae := eval_metric p lb,
    pv := meanHW s.uncert }

/-- What one panel of a comparison figure shows. -/
inductive PanelContent where
  | inputImage
  | predictedLabel (mae : ℚ)
  | groundTruthLabel
  | predictedVariance (pv : ℚ)
  | errorPanel
deriving Repr, DecidableEq

/-- The kind of a panel, its reported scalar forgotten. -/
inductive PanelKind where
  | inputImage
  | predictedLabel
  | groundTruthLabel
  | predictedVariance
  | errorPanel
deriving Repr, DecidableEq

/-- The kind of a panel content. -/
def panelKind : PanelContent → PanelKind
  | PanelContent.inputImage => PanelKind.inputImage
  | PanelContent.predictedLabel _ => PanelKind.predictedLabel
  | PanelContent.groundTruthLabel => PanelKind.groundTruthLabel
  | PanelContent.predictedVariance _ => PanelKind.predictedVariance
  | PanelContent.errorPanel => PanelKind.errorPanel

/-- One panel: its content and its colormap. -/
structure Panel where
  content : PanelContent
  cmap : Option String
deriving Repr, DecidableEq

/-- One saved comparison figure: its path and its panels, left to right. -/
structure Figure where
  path : String
  panels : List Panel
deriving Repr, DecidableEq

/-- Python `'%03d' % i` for `i ≥ 0`: decimal digits left-padded with zeros
to width at least 3. -/
def format03 (i : Nat) : String :=
  String.mk (List.replicate (3 - (Nat.repr i).length) '0') ++ Nat.repr i

/-- The figure the evaluation loop saves for sample index `i`
(lines 343-363): five panels — the input image, the prediction titled with
its mean absolute error, the ground-truth label, the predictive variance
titled with its mean, and the error map — with colormaps
`[None, None, None, jet, jet]`, written to
`os.path.join(args.out, 'test/%03d.png' % i)`. -/
def sampleFigure (out : String) (i : Nat) (s : TestSample) : Figure :=
  let q := processSample s
  { path := pathJoin out ("test/" ++ format03 i ++ ".png")
    panels :=
      [ { content := PanelContent.inputImage, cmap := none },
        { content := PanelContent.predictedLabel q.mae, cmap := none },
        { content := PanelContent.groundTruthLabel, cmap := none },
        { content := PanelContent.predictedVariance q.pv, cmap := some "jet" },
        { content := PanelContent.errorPanel, cmap := some "jet" } ] }

/-- The figures the evaluation loop of `test_phase` writes: one per test
sample, in iterator order, indexed by `enumerate` from 0. -/
def test_phase_figures (out : String) (samples : List TestSample) : List Figure :=
  samples.enum.map fun is => sampleFigure out is.1 is.2

/-! ### Claims -/

/-- C1: whenever `--test_on_test` is set, `main` raises the `RuntimeError`
whose message states that this example is under construction, and
`test_phase` is never called on the test dataset (the raise precedes the
call, so the step trace holds no step at all). -/
theorem C1_test_on_test_raises (args : Args) (h : args.test_on_test = true) :
    (mainDispatch args).2 = some under_construction_msg ∧
    under_construction_msg =
      "This example is under construction. Please tune the hyperparameters first.." ∧
    Step.testPhase Split.test ∉ (mainDispatch args).1 ∧
    (mainDispatch args).1 = [] := by
  simp [mainDispatch, h, under_construction_msg]

/-- Witness for C1: the default arguments with `--test_on_test` set. -/
theorem C1_test_on_test_raises_witness :
    (mainDispatch { default_args with test_on_test := true }).2 =
      some under_construction_msg ∧
    under_construction_msg =
      "This example is under construction. Please tune the hyperparameters first.." ∧
    Step.testPhase Split.test ∉
      (mainDispatch { default_args with test_on_test := true }).1 ∧
    (mainDispatch { default_args with test_on_test := true }).1 = [] :=
  C1_test_on_test_raises { default_args with test_on_test := true } rfl

/-- C2: `main` selects exactly one of three mutually exclusive modes in fixed
priority order: `--test_on_test` raises; otherwise `--test_on_valid` runs
`test_phase` on the validation split; otherwise training mode saves the
argument, model, normalizer and augmentor configurations and runs
`train_phase`. -/
theorem C2_mode_dispatch (args : Args) :
    (args.test_on_test = true →
      mainDispatch args = ([], some under_construction_msg)) ∧
    (args.test_on_test = false → args.test_on_valid = true →
      mainDispatch args = ([Step.testPhase Split.valid], none)) ∧
    (args.test_on_test = false → args.test_on_valid = false →
      mainDispatch args =
        ([Step.saveArgs,
          Step.saveModelJson (pathJoin args.out "model.json"),
          Step.saveNormJson (pathJoin args.out "norm.json"),
          Step.saveAugmentJson (pathJoin args.out "augment.json"),
          Step.trainPhase], none)) := by
  refine ⟨fun h1 => ?_, fun h1 h2 => ?_, fun h1 h2 => ?_⟩ <;>
    simp [mainDispatch, h1]
  · simp [h2]
  · simp [h2]

/-- C6: the normalizer built by `get_normalizer` contains exactly one
operation, `Subtract2D` with subtrahend 0, and it is the normalizer attached
to each of the three datasets built in `main`. -/
theorem C6_normalizer_subtract_zero (data_root : String) (r : ℚ) (va : Bool) :
    get_normalizer = [NormOp.Subtract2D 0] ∧
    get_normalizer.length = 1 ∧
    (get_dataset data_root r va (some get_normalizer) (some get_augmentor)).1.normalizer
      = some [NormOp.Subtract2D 0] ∧
    (get_dataset data_root r va (some get_normalizer) (some get_augmentor)).2.1.normalizer
      = some [NormOp.Subtract2D 0] ∧
    (get_dataset data_root r va (some get_normalizer) (some get_augmentor)).2.2.normalizer
      = some [NormOp.Subtract2D 0] := by
  refine ⟨rfl, rfl, rfl, ?_, rfl⟩
  cases va <;> rfl

/-- C7: the augmentation pipeline is, in order, a resize to 286x286 with a
crop to 256x256, a flip along axis 1 and a flip along axis 2; `get_dataset`
attaches it to the training set, removes it from the validation split unless
`valid_augment` is set, and never attaches it to the test set. -/
theorem C7_augmentor_pipeline (data_root : String) (r : ℚ) (va : Bool)
    (nrm : Option (List NormOp)) :
    get_augmentor =
      [AugOp.ResizeCrop2D (286, 286) (256, 256), AugOp.Flip2D 1, AugOp.Flip2D 2] ∧
    (get_dataset data_root r va nrm (some get_augmentor)).1.augmentor
      = some get_augmentor ∧
    (get_dataset data_root r va nrm (some get_augmentor)).2.1.augmentor
      = (if va then some get_augmentor else none) ∧
    (get_dataset data_root r va nrm (some get_augmentor)).2.2.augmentor
      = none := by
  refine ⟨rfl, rfl, ?_, rfl⟩
  cases va <;> rfl

/-- C9: the `weight_decay` passed to both Adam optimizers equals
`max(decay, 0)`, hence is never negative; with the parser's default
`decay = -1` it is 0. -/
theorem C9_weight_decay_clamped (args : Args) :
    (optimizer_G args).weight_decay = max args.decay 0 ∧
    (optimizer_D args).weight_decay = max args.decay 0 ∧
    0 ≤ (optimizer_G args).weight_decay ∧
    0 ≤ (optimizer_D args).weight_decay ∧
    default_args.decay = -1 ∧
    (optimizer_G default_args).weight_decay = 0 ∧
    (optimizer_D default_args).weight_decay = 0 := by
  refine ⟨rfl, rfl, le_max_right _ _, le_max_right _ _, rfl, ?_, ?_⟩ <;>
    simp [optimizer_G, optimizer_D, default_args]

/-- C10: the checkpoint/validation frequency equals
`max(iteration // 80, 1)` when `args.frequency = -1` and
`max(1, args.frequency)` otherwise, so it is always at least 1, and it is the
trigger interval of every snapshot extension, of the validator and of the
plot extensions. -/
theorem C10_frequency_at_least_one (args : Args) :
    1 ≤ frequency args ∧
    (args.frequency = -1 →
      frequency args = max (Int.fdiv args.iteration 80) 1) ∧
    (args.frequency ≠ -1 → frequency args = max 1 args.frequency) ∧
    (∀ x ∈ snapshotsOf (train_mode_artifacts args),
      x.2.2 = (frequency args, "iteration")) ∧
    Artifact.validationFigure "validation/iter_\x7b.updater.iteration:08\x7d.png"
      (frequency args, "iteration") ∈ train_phase_artifacts args ∧
    Artifact.plotFigure "loss.png" (frequency args, "iteration")
      ∈ train_phase_artifacts args ∧
    Artifact.plotFigure "accuracy.png" (frequency args, "iteration")
      ∈ train_phase_artifacts args := by
  refine ⟨?_, fun h => by simp [frequency, h], fun h => by simp [frequency, h],
    ?_, ?_, ?_, ?_⟩
  · unfold frequency
    split
    · exact le_max_right _ _
    · exact le_max_left _ _
  · intro x hx
    simp [train_mode_artifacts, train_phase_artifacts, snapshotsOf] at hx
    rcases hx with h | h | h <;> simp [h]
  · simp [train_phase_artifacts]
  · simp [train_phase_artifacts]
  · simp [train_phase_artifacts]

/-- C3: in training mode the persisted artifacts are the per-checkpoint
snapshots — a trainer snapshot, a generator snapshot and a discriminator
snapshot, each registered with trigger `(frequency, iteration)` — and the
JSON configuration summaries model.json, norm.json, augment.json plus
discriminator.json (alongside the argument summary written by `save_args`). -/
theorem C3_training_artifacts (args : Args) :
    (args.test_on_test = false → args.test_on_valid = false →
      Step.saveModelJson (pathJoin args.out "model.json") ∈ (mainDispatch args).1 ∧
      Step.saveNormJson (pathJoin args.out "norm.json") ∈ (mainDispatch args).1 ∧
      Step.saveAugmentJson (pathJoin args.out "augment.json") ∈ (mainDispatch args).1 ∧
      Step.trainPhase ∈ (mainDispatch args).1) ∧
    snapshotsOf (train_mode_artifacts args) =
      [("snapshot_iter_\x7b.updater.iteration:08\x7d.pth", SnapshotTarget.trainer,
          (frequency args, "iteration")),
       ("generator_iter_\x7b.updater.iteration:08\x7d.pth", SnapshotTarget.generator,
          (frequency args, "iteration")),
       ("discriminator_iter_\x7b.updater.iteration:08\x7d.pth",
          SnapshotTarget.discriminator, (frequency args, "iteration"))] ∧
    configJsonsOf (train_mode_artifacts args) =
      [("args", ConfigKind.args), ("model.json", ConfigKind.model),
       ("norm.json", ConfigKind.normalizer), ("augment.json", ConfigKind.augmentor),
       ("discriminator.json", ConfigKind.discriminator)] := by
  refine ⟨fun h1 h2 => ?_, rfl, rfl⟩
  simp [mainDispatch, h1, h2]

/-- C8: the stop trigger bounds training at `args.iteration` iterations, is
checked every `frequency` iterations, and has infinite patience when
`pinfall = -1` and `max(1, pinfall)` otherwise; every executed update has
index below `args.iteration`, so training terminates after at most
`args.iteration` iterations. -/
theorem C8_training_bounded (args : Args) (earlyStop : Nat → Bool) (k : Nat)
    (h : updateExecuted (stop_trigger args) earlyStop k) :
    (stop_trigger args).max_trigger = (args.iteration, "iteration") ∧
    (stop_trigger args).check_trigger = (frequency args, "iteration") ∧
    (stop_trigger args).patients
      = (if args.pinfall = -1 then none else some (max 1 args.pinfall)) ∧
    ((k : Int) < args.iteration) := by
  refine ⟨rfl, rfl, rfl, ?_⟩
  have hk := h k le_rfl
  simp [triggerFires, stop_trigger, not_le] at hk
  exact hk.2

/-- Witness for C8: the default arguments, no early stop, update index 0. -/
theorem C8_training_bounded_witness :
    (stop_trigger default_args).max_trigger = (default_args.iteration, "iteration") ∧
    (stop_trigger default_args).check_trigger
      = (frequency default_args, "iteration") ∧
    (stop_trigger default_args).patients
      = (if default_args.pinfall = -1 then none
         else some (max 1 default_args.pinfall)) ∧
    (((0 : Nat) : Int) < default_args.iteration) :=
  C8_training_bounded default_args (fun _ => false) 0 (by
    intro j hj
    simp only [Nat.le_zero] at hj
    subst hj
    decide)

/-- A concrete 1x1 three-channel test sample used by the witnesses. -/
def sample0 : TestSample :=
  { pred := { C := 3, H := 1, W := 1, px := fun _ _ _ => 0 }
    uncert := { H := 1, W := 1, px := fun _ _ => 0 }
    image := { H := 1, W := 1, C := 3, px := fun _ _ _ => 1 }
    label := { H := 1, W := 1, C := 3, px := fun _ _ _ => 0 } }

/-- C4: the evaluation loop writes exactly one comparison figure per test
sample, at consecutively indexed paths `out/test/%03d.png` starting from 0,
each with five panels in order: input image, predicted label titled with its
mean absolute error, ground-truth label, predicted variance, and error map. -/
theorem C4_per_sample_figures (out : String) (samples : List TestSample)
    (i : Nat) (hi : i < samples.length)
    (hi2 : i < (test_phase_figures out samples).length) :
    (test_phase_figures out samples).length = samples.length ∧
    (test_phase_figures out samples).get ⟨i, hi2⟩
      = sampleFigure out i (samples.get ⟨i, hi⟩) ∧
    (sampleFigure out i (samples.get ⟨i, hi⟩)).path
      = out ++ "/" ++ ("test/" ++ format03 i ++ ".png") ∧
    ((sampleFigure out i (samples.get ⟨i, hi⟩)).panels.map fun pl =>
        panelKind pl.content)
      = [PanelKind.inputImage, PanelKind.predictedLabel,
         PanelKind.groundTruthLabel, PanelKind.predictedVariance,
         PanelKind.errorPanel] ∧
    (sampleFigure out i (samples.get ⟨i, hi⟩)).panels.map Panel.content
      = [PanelContent.inputImage,
         PanelContent.predictedLabel (processSample (samples.get ⟨i, hi⟩)).mae,
         PanelContent.groundTruthLabel,
         PanelContent.predictedVariance (processSample (samples.get ⟨i, hi⟩)).pv,
         PanelContent.errorPanel] := by
  refine ⟨by simp [test_phase_figures], ?_, rfl, rfl, rfl⟩
  simp [test_phase_figures, List.get_eq_getElem]

/-- Witness for C4: one sample, index 0. -/
theorem C4_per_sample_figures_witness :
    (test_phase_figures "logs" [sample0]).length = 1 ∧
    (sampleFigure "logs" 0 ([sample0].get ⟨0, by decide⟩)).path
      = "logs" ++ "/" ++ ("test/" ++ format03 0 ++ ".png") :=
  ⟨(C4_per_sample_figures "logs" [sample0] 0 (by decide)
      (by simp [test_phase_figures])).1,
   (C4_per_sample_figures "logs" [sample0] 0 (by decide)
      (by simp [test_phase_figures])).2.2.1⟩

/-- C5: evaluation draws exactly `args.mc_iteration` repeated stochastic
forward passes through an `MCSampler` configured with tanh activation, no
mean reduction and variance reduction by a mean over dimension 1, and the
error map is the per-pixel mean over channels of the absolute difference
between the rescaled prediction and the rescaled ground-truth label. -/
theorem C5_mc_sampling_and_error (args : Args) (h : 0 ≤ args.mc_iteration)
    (forward : Nat → ImageCHW) (s : TestSample) :
    ((mcSampleOutputs (test_model args) forward).length : Int)
      = args.mc_iteration ∧
    (test_model args).activation = Activation.tanh ∧
    (test_model args).reduce_mean = Reduction.none ∧
    (test_model args).reduce_var = Reduction.meanDim 1 ∧
    (∀ i j, (processSample s).error.px i j
      = (∑ c ∈ Finset.range s.pred.C,
           |(rescaleHalf (revChannels (transpose120 s.pred))).px i j c
             - (rescaleHalf (revChannels s.label)).px i j c|) / (s.pred.C : ℚ)) := by
  refine ⟨?_, rfl, rfl, rfl, fun i j => rfl⟩
  have hl : (mcSampleOutputs (test_model args) forward).length
      = args.mc_iteration.toNat := by
    simp [mcSampleOutputs, test_model]
  rw [hl]
  exact Int.toNat_of_nonneg h

/-- Witness for C5: the default arguments (15 MC iterations) on `sample0`. -/
theorem C5_mc_sampling_and_error_witness :
    ((mcSampleOutputs (test_model default_args) fun _ => sample0.pred).length : Int)
      = default_args.mc_iteration ∧
    (test_model default_args).activation = Activation.tanh ∧
    (test_model default_args).reduce_var = Reduction.meanDim 1 :=
  ⟨(C5_mc_sampling_and_error default_args (by decide)
      (fun _ => sample0.pred) sample0).1,
   (C5_mc_sampling_and_error default_args (by decide)
      (fun _ => sample0.pred) sample0).2.1,
   (C5_mc_sampling_and_error default_args (by decide)
      (fun _ => sample0.pred) sample0).2.2.2.1⟩

end Pix2Pix
